import Mathlib

/-!
Verification of the asynchronous export-and-playback engine of the
wildfire-dashboard frontend.  The definitions below are a shallow embedding of
the JavaScript source: `startForestDataExport` / `checkForestDataStatus`
(DataManager), the poll loop and layer resolution of
`handleCountySelectionForGEE` (ForestLayer), and the frame discovery and
animation state machine of `WildfireSimulationLayer`.  Network responses and
renderer events are passed in explicitly as parameters, so every definition is
executable and the theorems can be evaluated on concrete inputs.
-/

namespace WildfireDashboard

/-- JS truthiness of an optional string field: `undefined` / `null` and the
empty string are falsy, every other string is truthy. -/
def jsTruthy : Option String → Bool
  | none => false
  | some s => !(s == "")

/-- JS template-literal rendering of a possibly-undefined value: `undefined`
interpolates as the literal text "undefined". -/
def jsStr : Option String → String
  | none => "undefined"
  | some s => s

/-- JS `a || b` where `a` is a possibly-undefined string and `b` a string:
returns `a` when truthy, else `b`. -/
def jsOr (a : Option String) (b : String) : String :=
  match a with
  | some s => if s == "" then b else s
  | none => b

/-- Response of the start-export API as passed through by `startForestExport`
(fields `status`, `task_id`, `filename_key`, and possibly `url` /
`local_path`).  `status` is kept as a raw string exactly as the code switches
on it; absent fields are `none`. -/
structure StartResponse where
  status : String
  task_id : Option String
  filename_key : Option String
  url : Option String
  local_path : Option String
deriving Repr, DecidableEq

/-- Response of the check-status API as passed through by
`checkExportStatus`. -/
structure StatusResponse where
  status : String
  url : Option String
  local_path : Option String
  error : Option String
deriving Repr, DecidableEq

/-- The `currentExportTask` record stored in application state by the
DataManager. -/
structure ExportTask where
  id : Option String
  countyKey : Option String
  status : String
  localUrl : Option String
deriving Repr, DecidableEq

/-- Result of one `startForestDataExport` call: the final task record written
to state, the value written to `currentGEEForestFileUrl` (if any), and whether
a user-facing alert was raised. -/
structure StartOutcome where
  task : ExportTask
  fileUrl : Option String
  alerted : Bool
deriving Repr, DecidableEq

/-- The task record written by every failure path of
`startForestDataExport`. -/
def failedTask : ExportTask :=
  { id := none, countyKey := none, status := "FAILED", localUrl := none }

/-- Function `startForestDataExport` from DataManager.  `countyKey` is the value of
`getCurrentCountyKey()`; `resp` is the start-export API response (`none` for a
transport failure, which the API client normalizes to `null`).  The transient
`PENDING` record is immediately overwritten, so the function returns the final
state. -/
def startForestDataExport (countyKey : Option String) (resp : Option StartResponse) :
    StartOutcome :=
  if !(jsTruthy countyKey) then { task := failedTask, fileUrl := none, alerted := true }
  else
    match resp with
    | none => { task := failedTask, fileUrl := none, alerted := true }
    | some r =>
      if r.status == "" then { task := failedTask, fileUrl := none, alerted := true }
      else if r.status == "COMPLETED" then
        let fileUrl := jsOr r.url (jsOr r.local_path ("/exports/" ++ jsStr r.filename_key ++ ".tif"))
        { task := { id := none, countyKey := r.filename_key, status := "COMPLETED",
                    localUrl := some fileUrl },
          fileUrl := some fileUrl, alerted := false }
      else if r.status == "PROCESSING" then
        { task := { id := r.task_id, countyKey := r.filename_key, status := "PROCESSING",
                    localUrl := none },
          fileUrl := none, alerted := true }
      else { task := failedTask, fileUrl := none, alerted := true }

/-- Result of one `checkForestDataStatus` call: the (possibly-updated) task
record, the string the function returns, and the value written to
`currentGEEForestFileUrl` (if any). -/
structure CheckOutcome where
  newTask : Option ExportTask
  result : String
  fileUrl : Option String
deriving Repr, DecidableEq

/-- Function `checkForestDataStatus` from DataManager.  `taskState` is the current
`appState.currentExportTask`; `resp` is the status-check API response (`none`
for a transport failure, which both the API client returning `null` and a
thrown error reduce to: either way the local catch marks the task FAILED). -/
def checkForestDataStatus (taskState : Option ExportTask) (resp : Option StatusResponse) :
    CheckOutcome :=
  match taskState with
  | none => { newTask := none, result := "NONE", fileUrl := none }
  | some task =>
    if task.status == "" || task.status == "NONE" then
      { newTask := some task, result := "NONE", fileUrl := none }
    else if task.status == "COMPLETED" then
      { newTask := some task, result := "COMPLETED", fileUrl := none }
    else if task.status == "PROCESSING" && !(jsTruthy task.id) then
      { newTask := some task, result := "FAILED", fileUrl := none }
    else
      match resp with
      | none => { newTask := some { task with status := "FAILED" }, result := "FAILED",
                  fileUrl := none }
      | some sr =>
        if sr.status == "COMPLETED" then
          let fileUrl := jsOr sr.url (jsOr sr.local_path
            ("/exports/" ++ jsStr task.countyKey ++ ".tif"))
          { newTask := some { task with status := "COMPLETED", localUrl := some fileUrl },
            result := "COMPLETED", fileUrl := some fileUrl }
        else if sr.status == "PROCESSING" then
          { newTask := some { task with status := "PROCESSING" }, result := "PROCESSING",
            fileUrl := none }
        else if sr.status == "FAILED" then
          { newTask := some { task with status := "FAILED" }, result := "FAILED",
            fileUrl := none }
        else { newTask := some task, result := "UNKNOWN", fileUrl := none }

/-- Constant `MAX_ATTEMPTS` of the ForestLayer poll loop. -/
def MAX_ATTEMPTS : Nat := 120

/-- Constant `INTERVAL_MS` of the ForestLayer poll loop (milliseconds). -/
def INTERVAL_MS : Nat := 5000

/-- Result of the ForestLayer poll loop: the terminal status (`none` means the
attempt budget was exhausted, i.e. timeout), how many loop iterations ran
(each issues at most one status check), how many interval sleeps happened, the
final task record, and the last file URL written to state. -/
structure PollOutcome where
  finalStatus : Option String
  checks : Nat
  sleeps : Nat
  finalTask : Option ExportTask
  fileUrl : Option String
deriving Repr, DecidableEq

/-- One-sided recursion of the ForestLayer `while (attempts < MAX_ATTEMPTS)`
loop: `n` is the remaining attempt budget, `k` the 0-based attempt number,
`resps k` the status-check response observed at attempt `k`, `taskState` the
threaded task record and `gee` the threaded `currentGEEForestFileUrl`. -/
def pollAux (resps : Nat → Option StatusResponse) :
    Nat → Nat → Option ExportTask → Option String → PollOutcome
  | 0, _, taskState, gee =>
    { finalStatus := none, checks := 0, sleeps := 0, finalTask := taskState, fileUrl := gee }
  | n + 1, k, taskState, gee =>
    let out := checkForestDataStatus taskState (resps k)
    let gee2 := match out.fileUrl with
      | some u => some u
      | none => gee
    if out.result == "COMPLETED" then
      { finalStatus := some "COMPLETED", checks := 1, sleeps := 0, finalTask := out.newTask,
        fileUrl := gee2 }
    else if out.result == "FAILED" then
      { finalStatus := some "FAILED", checks := 1, sleeps := 0, finalTask := out.newTask,
        fileUrl := gee2 }
    else
      let rest := pollAux resps n (k + 1) out.newTask gee2
      { finalStatus := rest.finalStatus, checks := rest.checks + 1, sleeps := rest.sleeps + 1,
        finalTask := rest.finalTask, fileUrl := rest.fileUrl }

/-- The ForestLayer poll loop (step 3 of `handleCountySelectionForGEE`). -/
def pollLoop (resps : Nat → Option StatusResponse) (taskState : Option ExportTask)
    (gee : Option String) : PollOutcome :=
  pollAux resps MAX_ATTEMPTS 0 taskState gee

theorem pollAux_succ (resps : Nat → Option StatusResponse) (n k : Nat)
    (taskState : Option ExportTask) (gee : Option String) :
    pollAux resps (n + 1) k taskState gee =
      (let out := checkForestDataStatus taskState (resps k)
       let gee2 := match out.fileUrl with
         | some u => some u
         | none => gee
       if out.result == "COMPLETED" then
         { finalStatus := some "COMPLETED", checks := 1, sleeps := 0, finalTask := out.newTask,
           fileUrl := gee2 }
       else if out.result == "FAILED" then
         { finalStatus := some "FAILED", checks := 1, sleeps := 0, finalTask := out.newTask,
           fileUrl := gee2 }
       else
         let rest := pollAux resps n (k + 1) out.newTask gee2
         { finalStatus := rest.finalStatus, checks := rest.checks + 1,
           sleeps := rest.sleeps + 1, finalTask := rest.finalTask, fileUrl := rest.fileUrl }) :=
  rfl

theorem pollAux_bounds (resps : Nat → Option StatusResponse) (n : Nat) :
    ∀ (k : Nat) (taskState : Option ExportTask) (gee : Option String),
      (pollAux resps n k taskState gee).checks ≤ n ∧
      (pollAux resps n k taskState gee).sleeps ≤ n ∧
      ((pollAux resps n k taskState gee).finalStatus = some "COMPLETED" ∨
       (pollAux resps n k taskState gee).finalStatus = some "FAILED" ∨
       (pollAux resps n k taskState gee).finalStatus = none) := by
  induction n with
  | zero =>
    intro k taskState gee
    simp [pollAux]
  | succ n ih =>
    intro k taskState gee
    rw [pollAux_succ]
    simp only []
    split
    · simp
    · split
      · simp
      · have h := ih (k + 1) (checkForestDataStatus taskState (resps k)).newTask
          (match (checkForestDataStatus taskState (resps k)).fileUrl with
            | some u => some u
            | none => gee)
        obtain ⟨h1, h2, h3⟩ := h
        refine ⟨?_, ?_, ?_⟩
        · simp only [PollOutcome.checks]
          omega
        · simp only [PollOutcome.sleeps]
          omega
        · rcases h3 with h3 | h3 | h3 <;> simp [h3]

theorem jsOr_of_truthy (a : Option String) (b : String) (h : jsTruthy a = true) :
    some (jsOr a b) = a := by
  cases a with
  | none => simp [jsTruthy] at h
  | some s =>
    simp only [jsTruthy, Bool.not_eq_true'] at h
    simp [jsOr, h]

theorem jsOr_of_falsy (a : Option String) (b : String) (h : jsTruthy a = false) :
    jsOr a b = b := by
  cases a with
  | none => simp [jsOr]
  | some s =>
    have hs : s = "" := by
      by_cases hs : s = ""
      · exact hs
      · exfalso
        simp [jsTruthy, hs] at h
    simp [jsOr, hs]

/-- Claim C7: the poll loop issues at most `MAX_ATTEMPTS` status checks, sleeps
in total at most `MAX_ATTEMPTS * INTERVAL_MS` between checks, and always
terminates with COMPLETED, FAILED, or timeout (attempt budget exhausted). -/
theorem C7_poll_loop_bounded (resps : Nat → Option StatusResponse)
    (taskState : Option ExportTask) (gee : Option String) :
    (pollLoop resps taskState gee).checks ≤ MAX_ATTEMPTS ∧
    (pollLoop resps taskState gee).sleeps * INTERVAL_MS ≤ MAX_ATTEMPTS * INTERVAL_MS ∧
    ((pollLoop resps taskState gee).finalStatus = some "COMPLETED" ∨
     (pollLoop resps taskState gee).finalStatus = some "FAILED" ∨
     (pollLoop resps taskState gee).finalStatus = none) := by
  obtain ⟨h1, h2, h3⟩ := pollAux_bounds resps MAX_ATTEMPTS 0 taskState gee
  exact ⟨h1, Nat.mul_le_mul h2 (Nat.le_refl INTERVAL_MS), h3⟩

/-- Claim C1 counterexample: with the task PROCESSING (job id "T1") and the very
first status check suffering a transport failure (the client returns no
response), the poll loop terminates immediately as FAILED after a single check
— the failure is not counted as a non-terminal PROCESSING iteration. -/
theorem C1_counterexample :
    pollLoop (fun _ => none)
        (some { id := some "T1", countyKey := some "Maricopa_AZ", status := "PROCESSING",
                localUrl := none }) none
      = { finalStatus := some "FAILED", checks := 1, sleeps := 0,
          finalTask := some { id := some "T1", countyKey := some "Maricopa_AZ",
                              status := "FAILED", localUrl := none },
          fileUrl := none } := by decide

/-- Claim C1 (amended): a transport failure during the status check is not
swallowed: `checkForestDataStatus` maps it to FAILED (also marking the stored
task FAILED), and the poll loop therefore terminates as FAILED at that very
iteration rather than counting it as a PROCESSING iteration; only an
unrecognized response status is treated as a non-terminal iteration. -/
theorem C1_transport_failure_terminates_poll (task : ExportTask)
    (resps : Nat → Option StatusResponse)
    (hst : task.status = "PROCESSING") (hid : jsTruthy task.id = true)
    (h0 : resps 0 = none) :
    checkForestDataStatus (some task) (resps 0)
      = { newTask := some { task with status := "FAILED" }, result := "FAILED",
          fileUrl := none } ∧
    pollLoop resps (some task) none
      = { finalStatus := some "FAILED", checks := 1, sleeps := 0,
          finalTask := some { task with status := "FAILED" }, fileUrl := none } := by
  have hc : checkForestDataStatus (some task) (resps 0)
      = { newTask := some { task with status := "FAILED" }, result := "FAILED",
          fileUrl := none } := by
    rw [h0]
    simp [checkForestDataStatus, hst, hid]
  refine ⟨hc, ?_⟩
  rw [pollLoop, show MAX_ATTEMPTS = 119 + 1 from rfl, pollAux_succ, hc]
  simp

/-- Witness for the amended C1 theorem at a concrete PROCESSING task. -/
theorem C1_witness :
    (pollLoop (fun _ => none)
        (some { id := some "J9", countyKey := some "Dade_FL", status := "PROCESSING",
                localUrl := none }) none).finalStatus = some "FAILED" := by
  rw [(C1_transport_failure_terminates_poll
        { id := some "J9", countyKey := some "Dade_FL", status := "PROCESSING",
          localUrl := none }
        (fun _ => none) rfl (by decide) rfl).2]

/-- Claim C4 counterexample: a COMPLETED start response whose `filename_key`
("Other") differs from the entity key the task was started for ("Maricopa_AZ"),
with `url` and `local_path` absent, resolves to "/exports/Other.tif" — the
fallback path is derived from the response's filename key, not from the entity
key the task was started for. -/
theorem C4_counterexample :
    (startForestDataExport (some "Maricopa_AZ")
        (some { status := "COMPLETED", task_id := none, filename_key := some "Other",
                url := none, local_path := none })).task.localUrl
      = some "/exports/Other.tif" ∧
    ("/exports/Other.tif" : String) ≠ "/exports/Maricopa_AZ.tif" := by decide

/-- Claim C4 (amended): on a COMPLETED start or status response the resolved
address follows the preference order `url` if truthy, else `local_path` if
truthy, else the constructed `/exports/{key}.tif` — where the fallback key is
the response's `filename_key` for the start path, and the task record's
`countyKey` for the status path (itself previously overwritten with the start
response's `filename_key`), not necessarily the entity key the task was
started for. -/
theorem C4_address_preference (ck : Option String) (r : StartResponse)
    (task : ExportTask) (sr : StatusResponse)
    (hck : jsTruthy ck = true) (hr : r.status = "COMPLETED")
    (ht : task.status = "PROCESSING") (hid : jsTruthy task.id = true)
    (hsr : sr.status = "COMPLETED") :
    ((jsTruthy r.url = true → (startForestDataExport ck (some r)).task.localUrl = r.url) ∧
     (jsTruthy r.url = false → jsTruthy r.local_path = true →
        (startForestDataExport ck (some r)).task.localUrl = r.local_path) ∧
     (jsTruthy r.url = false → jsTruthy r.local_path = false →
        (startForestDataExport ck (some r)).task.localUrl
          = some ("/exports/" ++ jsStr r.filename_key ++ ".tif"))) ∧
    ((jsTruthy sr.url = true →
        (checkForestDataStatus (some task) (some sr)).fileUrl = sr.url) ∧
     (jsTruthy sr.url = false → jsTruthy sr.local_path = true →
        (checkForestDataStatus (some task) (some sr)).fileUrl = sr.local_path) ∧
     (jsTruthy sr.url = false → jsTruthy sr.local_path = false →
        (checkForestDataStatus (some task) (some sr)).fileUrl
          = some ("/exports/" ++ jsStr task.countyKey ++ ".tif")) ∧
     ((checkForestDataStatus (some task) (some sr)).newTask).map ExportTask.localUrl
        = some ((checkForestDataStatus (some task) (some sr)).fileUrl)) := by
  have hstart : (startForestDataExport ck (some r)).task.localUrl
      = some (jsOr r.url (jsOr r.local_path
          ("/exports/" ++ jsStr r.filename_key ++ ".tif"))) := by
    simp [startForestDataExport, hck, hr]
  have hcheck : (checkForestDataStatus (some task) (some sr)).fileUrl
      = some (jsOr sr.url (jsOr sr.local_path
          ("/exports/" ++ jsStr task.countyKey ++ ".tif"))) := by
    simp [checkForestDataStatus, ht, hid, hsr]
  refine ⟨⟨?_, ?_, ?_⟩, ?_, ?_, ?_, ?_⟩
  · intro hu
    rw [hstart]
    exact jsOr_of_truthy _ _ hu
  · intro hu hp
    rw [hstart, jsOr_of_falsy _ _ hu]
    exact jsOr_of_truthy _ _ hp
  · intro hu hp
    rw [hstart, jsOr_of_falsy _ _ hu, jsOr_of_falsy _ _ hp]
  · intro hu
    rw [hcheck]
    exact jsOr_of_truthy _ _ hu
  · intro hu hp
    rw [hcheck, jsOr_of_falsy _ _ hu]
    exact jsOr_of_truthy _ _ hp
  · intro hu hp
    rw [hcheck, jsOr_of_falsy _ _ hu, jsOr_of_falsy _ _ hp]
  · simp [checkForestDataStatus, ht, hid, hsr]

/-- Witness for the amended C4 theorem: a COMPLETED start response carrying a
`url` resolves to exactly that url. -/
theorem C4_witness :
    (startForestDataExport (some "Maricopa_AZ")
        (some { status := "COMPLETED", task_id := none, filename_key := some "Maricopa_AZ",
                url := some "https://host/exports/Maricopa_AZ.tif",
                local_path := none })).task.localUrl
      = some "https://host/exports/Maricopa_AZ.tif" :=
  (C4_address_preference (some "Maricopa_AZ")
      { status := "COMPLETED", task_id := none, filename_key := some "Maricopa_AZ",
        url := some "https://host/exports/Maricopa_AZ.tif", local_path := none }
      { id := some "T1", countyKey := some "Maricopa_AZ", status := "PROCESSING",
        localUrl := none }
      { status := "COMPLETED", url := none, local_path := none, error := none }
      (by decide) rfl rfl (by decide) rfl).1.1 (by decide)

/-- Claim C5 counterexample: a PROCESSING start response with no `task_id`
leaves the task record in status PROCESSING with no job identifier — no
InvalidResponse failure is signalled and no FAILED status is recorded. -/
theorem C5_counterexample :
    (startForestDataExport (some "Maricopa_AZ")
        (some { status := "PROCESSING", task_id := none, filename_key := some "Maricopa_AZ",
                url := none, local_path := none })).task
      = { id := none, countyKey := some "Maricopa_AZ", status := "PROCESSING",
          localUrl := none } ∧
    (startForestDataExport (some "Maricopa_AZ")
        (some { status := "PROCESSING", task_id := none, filename_key := some "Maricopa_AZ",
                url := none, local_path := none })).task.status ≠ "FAILED" := by decide

/-- Claim C5 (amended): on a PROCESSING start response `startForestDataExport`
records the response's `task_id` verbatim — even when it is absent — and sets
the task PROCESSING; it performs no job-identifier validation.  The absent
identifier is only detected by the first `checkForestDataStatus` call, which
reports FAILED without issuing a status request and without updating the
stored record (which stays PROCESSING). -/
theorem C5_processing_without_id (ck : Option String) (r : StartResponse)
    (hck : jsTruthy ck = true) (hr : r.status = "PROCESSING") :
    (startForestDataExport ck (some r)).task
      = { id := r.task_id, countyKey := r.filename_key, status := "PROCESSING",
          localUrl := none } ∧
    (jsTruthy r.task_id = false →
      ∀ resp : Option StatusResponse,
        checkForestDataStatus
            (some { id := r.task_id, countyKey := r.filename_key, status := "PROCESSING",
                    localUrl := none }) resp
          = { newTask := some { id := r.task_id, countyKey := r.filename_key,
                                status := "PROCESSING", localUrl := none },
              result := "FAILED", fileUrl := none }) := by
  constructor
  · simp [startForestDataExport, hck, hr]
  · intro hid resp
    simp [checkForestDataStatus, hid]

/-- Witness for the amended C5 theorem at a concrete PROCESSING response. -/
theorem C5_witness :
    (startForestDataExport (some "Dade_FL")
        (some { status := "PROCESSING", task_id := none, filename_key := some "Dade_FL",
                url := none, local_path := none })).task
      = { id := none, countyKey := some "Dade_FL", status := "PROCESSING",
          localUrl := none } :=
  (C5_processing_without_id (some "Dade_FL")
      { status := "PROCESSING", task_id := none, filename_key := some "Dade_FL",
        url := none, local_path := none } (by decide) rfl).1

/-- Claim C6 counterexample: a FAILED task (which kept its job id from the
failed poll) is not terminal — a further `checkForestDataStatus` call against a
PROCESSING response moves the task record back to PROCESSING. -/
theorem C6_counterexample :
    checkForestDataStatus
        (some { id := some "T1", countyKey := some "K", status := "FAILED",
                localUrl := none })
        (some { status := "PROCESSING", url := none, local_path := none, error := none })
      = { newTask := some { id := some "T1", countyKey := some "K", status := "PROCESSING",
                            localUrl := none },
          result := "PROCESSING", fileUrl := none } := by decide

/-- Claim C6 (amended): COMPLETED is terminal — `checkForestDataStatus` on a
COMPLETED task returns immediately without mutating the record and without a
status request.  FAILED is not terminal: a subsequent call on a FAILED task
issues another status check and adopts the response's status, so further
polling can move the task back to PROCESSING or forward to COMPLETED. -/
theorem C6_completed_terminal_failed_not (task : ExportTask)
    (resp : Option StatusResponse) (sr : StatusResponse) :
    (task.status = "COMPLETED" →
      checkForestDataStatus (some task) resp
        = { newTask := some task, result := "COMPLETED", fileUrl := none }) ∧
    (task.status = "FAILED" → sr.status = "PROCESSING" →
      checkForestDataStatus (some task) (some sr)
        = { newTask := some { task with status := "PROCESSING" },
            result := "PROCESSING", fileUrl := none }) ∧
    (task.status = "FAILED" → sr.status = "COMPLETED" →
      (checkForestDataStatus (some task) (some sr)).result = "COMPLETED") := by
  refine ⟨?_, ?_, ?_⟩
  · intro h
    simp [checkForestDataStatus, h]
  · intro h hs
    simp [checkForestDataStatus, h, hs]
  · intro h hs
    simp [checkForestDataStatus, h, hs]

/-- Witness for the amended C6 theorem: a COMPLETED task is returned unchanged. -/
theorem C6_witness :
    checkForestDataStatus
        (some { id := some "T2", countyKey := some "K2", status := "COMPLETED",
                localUrl := some "/exports/K2.tif" }) none
      = { newTask := some { id := some "T2", countyKey := some "K2", status := "COMPLETED",
                            localUrl := some "/exports/K2.tif" },
          result := "COMPLETED", fileUrl := none } :=
  (C6_completed_terminal_failed_not
      { id := some "T2", countyKey := some "K2", status := "COMPLETED",
        localUrl := some "/exports/K2.tif" } none
      { status := "PROCESSING", url := none, local_path := none, error := none }).1 rfl

/-- Environment of one `handleCountySelectionForGEE` run: the outcomes of the
network interactions the resolver performs, in program order.  `headOk` is the
HEAD existence probe on the served GeoTIFF address; `cacheFetchOk` covers the
subsequent GET plus georaster parse of the cached file; `startResp` is the
start-export response; `previewUrl` the preview tile URL (absent on failure);
`statusResps` the status-check responses per poll attempt; `finalFetchOk`
covers the GET plus parse of the final GeoTIFF after COMPLETED. -/
structure ResolverEnv where
  hasMap : Bool
  countyIdentified : Bool
  countyKey : Option String
  headOk : Bool
  cacheFetchOk : Bool
  startResp : Option StartResponse
  previewUrl : Option String
  statusResps : Nat → Option StatusResponse
  finalFetchOk : Bool

/-- Observable outcome of one `handleCountySelectionForGEE` run. -/
structure ResolverOutcome where
  startExportCalled : Bool
  previewFetched : Bool
  previewShown : Bool
  statusChecks : Nat
  finalLayerShown : Bool
  previewKept : Bool
  toast : Option String
  toastIsError : Bool
deriving Repr, DecidableEq

/-- Function `handleCountySelectionForGEE` from ForestLayer: cache probe first; on a hit
(probe ok and fetch plus parse ok) render the cached raster and stop; otherwise
start the export, fetch a preview tile, run the poll loop, and dispatch on the
final outcome crossed with whether a preview is shown. -/
def handleCountySelectionForGEE (env : ResolverEnv) : ResolverOutcome :=
  if !env.hasMap then
    { startExportCalled := false, previewFetched := false, previewShown := false,
      statusChecks := 0, finalLayerShown := false, previewKept := false,
      toast := none, toastIsError := false }
  else if !env.countyIdentified then
    { startExportCalled := false, previewFetched := false, previewShown := false,
      statusChecks := 0, finalLayerShown := false, previewKept := false,
      toast := some "Cannot identify selected county.", toastIsError := true }
  else if env.headOk && env.cacheFetchOk then
    { startExportCalled := false, previewFetched := false, previewShown := false,
      statusChecks := 0, finalLayerShown := true, previewKept := false,
      toast := some "Forest layer map loaded successfully.", toastIsError := false }
  else
    let st := startForestDataExport env.countyKey env.startResp
    let previewShown := env.previewUrl.isSome
    let poll := pollLoop env.statusResps (some st.task) st.fileUrl
    if poll.finalStatus == some "COMPLETED" then
      if env.finalFetchOk then
        { startExportCalled := true, previewFetched := true, previewShown := previewShown,
          statusChecks := poll.checks, finalLayerShown := true, previewKept := false,
          toast := some "Forest layer map loaded successfully.", toastIsError := false }
      else if previewShown then
        { startExportCalled := true, previewFetched := true, previewShown := previewShown,
          statusChecks := poll.checks, finalLayerShown := false, previewKept := true,
          toast := some "Preview available, but final GeoTIFF failed to load.",
          toastIsError := true }
      else
        { startExportCalled := true, previewFetched := true, previewShown := previewShown,
          statusChecks := poll.checks, finalLayerShown := false, previewKept := false,
          toast := some "Failed to load forest layer.", toastIsError := true }
    else if poll.finalStatus == some "FAILED" then
      if previewShown then
        { startExportCalled := true, previewFetched := true, previewShown := previewShown,
          statusChecks := poll.checks, finalLayerShown := false, previewKept := true,
          toast := some "Export failed, showing preview (if available).",
          toastIsError := true }
      else
        { startExportCalled := true, previewFetched := true, previewShown := previewShown,
          statusChecks := poll.checks, finalLayerShown := false, previewKept := false,
          toast := some "Failed to generate forest GeoTIFF.", toastIsError := true }
    else
      if previewShown then
        { startExportCalled := true, previewFetched := true, previewShown := previewShown,
          statusChecks := poll.checks, finalLayerShown := false, previewKept := true,
          toast := some "Export is taking longer than expected; preview is shown.",
          toastIsError := false }
      else
        { startExportCalled := true, previewFetched := true, previewShown := previewShown,
          statusChecks := poll.checks, finalLayerShown := false, previewKept := false,
          toast := some "Timed out waiting for forest data.", toastIsError := true }

/-- Claim C9 counterexample: a run in which the cache existence probe reports
the raster present but the subsequent fetch of the cached file fails falls
through to the export path — `startExport` is called even though the probe
reported the raster present. -/
theorem C9_counterexample :
    (handleCountySelectionForGEE
        { hasMap := true, countyIdentified := true, countyKey := some "Dade_FL",
          headOk := true, cacheFetchOk := false, startResp := none, previewUrl := none,
          statusResps := fun _ => none, finalFetchOk := false }).startExportCalled
      = true := by decide

/-- Claim C9 (amended): when the cache existence probe reports the raster
present AND the subsequent fetch and decode of the cached raster succeed, the
resolver renders it directly as the final layer and stops: `startExport` is
never called, no preview is fetched, and no poll-loop status check runs.  If
the fetch or decode after a positive probe fails, the resolver instead falls
through to the export path. -/
theorem C9_cache_hit_short_circuits (env : ResolverEnv)
    (hm : env.hasMap = true) (hc : env.countyIdentified = true)
    (hh : env.headOk = true) (hf : env.cacheFetchOk = true) :
    handleCountySelectionForGEE env
      = { startExportCalled := false, previewFetched := false, previewShown := false,
          statusChecks := 0, finalLayerShown := true, previewKept := false,
          toast := some "Forest layer map loaded successfully.",
          toastIsError := false } := by
  simp [handleCountySelectionForGEE, hm, hc, hh, hf]

/-- Witness for the amended C9 theorem: a concrete cache-hit run renders
directly and never calls `startExport`. -/
theorem C9_witness :
    (handleCountySelectionForGEE
        { hasMap := true, countyIdentified := true, countyKey := some "Dade_FL",
          headOk := true, cacheFetchOk := true, startResp := none, previewUrl := none,
          statusResps := fun _ => none, finalFetchOk := true }).startExportCalled
      = false := by
  rw [C9_cache_hit_short_circuits
      { hasMap := true, countyIdentified := true, countyKey := some "Dade_FL",
        headOk := true, cacheFetchOk := true, startResp := none, previewUrl := none,
        statusResps := fun _ => none, finalFetchOk := true } rfl rfl rfl rfl]

/-- Outcome of probing one frame ordinal: HEAD probe ok and fetch plus decode
succeed (`present`), HEAD probe not ok (`absent`), or the fetch/decode threw
(`fetchFail`). -/
inductive ProbeResult
  | present
  | absent
  | fetchFail
deriving Repr, DecidableEq

/-- Constant `maxTimesteps`, the hard cap of the frame-discovery loop. -/
def maxTimesteps : Nat := 100

/-- JS `n.toString().padStart(3, "0")`. -/
def pad3 (n : Nat) : String :=
  let s := toString n
  if 3 ≤ s.length then s else String.mk (List.replicate (3 - s.length) '0') ++ s

/-- The probed frame address for ordinal `t`:
`{baseUrl}/wildfire_t_{t zero-padded to 3 digits}.tif`. -/
def frameUrl (baseUrl : String) (t : Nat) : String :=
  baseUrl ++ "/wildfire_t_" ++ pad3 t ++ ".tif"

/-- The `while (timestep < maxTimesteps)` discovery loop of
`loadWildfireFrames`: `n` is the remaining budget, `t` the current timestep;
a present probe registers the frame (we record its ordinal) and advances,
anything else breaks the loop. -/
def discoverAux (probe : Nat → ProbeResult) : Nat → Nat → List Nat
  | 0, _ => []
  | n + 1, t =>
    match probe t with
    | ProbeResult.present => t :: discoverAux probe n (t + 1)
    | _ => []

/-- Number of frames the discovery loop registers (same recursion as
`discoverAux`). -/
def discoverCount (probe : Nat → ProbeResult) : Nat → Nat → Nat
  | 0, _ => 0
  | n + 1, t =>
    match probe t with
    | ProbeResult.present => discoverCount probe n (t + 1) + 1
    | _ => 0

theorem discoverAux_eq_range (probe : Nat → ProbeResult) (n : Nat) :
    ∀ t, discoverAux probe n t
      = (List.range (discoverCount probe n t)).map (fun j => t + j) := by
  induction n with
  | zero =>
    intro t
    simp [discoverAux, discoverCount]
  | succ n ih =>
    intro t
    cases hp : probe t with
    | present =>
      simp only [discoverAux, discoverCount, hp]
      rw [ih (t + 1), List.range_succ_eq_map]
      simp only [List.map_cons, List.map_map, Nat.add_zero]
      congr 1
      apply List.map_congr_left
      intro j hj
      simp only [Function.comp_apply]
      omega
    | absent => simp [discoverAux, discoverCount, hp]
    | fetchFail => simp [discoverAux, discoverCount, hp]

theorem discoverCount_le (probe : Nat → ProbeResult) (n : Nat) :
    ∀ t, discoverCount probe n t ≤ n := by
  induction n with
  | zero =>
    intro t
    simp [discoverCount]
  | succ n ih =>
    intro t
    cases hp : probe t with
    | present =>
      simp only [discoverCount, hp]
      exact Nat.succ_le_succ (ih (t + 1))
    | absent => simp [discoverCount, hp]
    | fetchFail => simp [discoverCount, hp]

theorem discoverCount_present (probe : Nat → ProbeResult) (n : Nat) :
    ∀ t i, i < discoverCount probe n t → probe (t + i) = ProbeResult.present := by
  induction n with
  | zero =>
    intro t i h
    simp [discoverCount] at h
  | succ n ih =>
    intro t i h
    cases hp : probe t with
    | present =>
      simp only [discoverCount, hp] at h
      cases i with
      | zero => simpa using hp
      | succ j =>
        have hj := ih (t + 1) j (by omega)
        rw [show t + (j + 1) = (t + 1) + j by omega]
        exact hj
    | absent => simp [discoverCount, hp] at h
    | fetchFail => simp [discoverCount, hp] at h

theorem discoverCount_stop (probe : Nat → ProbeResult) (n : Nat) :
    ∀ t, discoverCount probe n t < n →
      probe (t + discoverCount probe n t) ≠ ProbeResult.present := by
  induction n with
  | zero =>
    intro t h
    omega
  | succ n ih =>
    intro t h
    cases hp : probe t with
    | present =>
      simp only [discoverCount, hp] at h ⊢
      have h2 : discoverCount probe n (t + 1) < n := by omega
      have h3 := ih (t + 1) h2
      rw [show t + (discoverCount probe n (t + 1) + 1)
            = (t + 1) + discoverCount probe n (t + 1) by omega]
      exact h3
    | absent =>
      simp only [discoverCount, hp]
      simp [hp]
    | fetchFail =>
      simp only [discoverCount, hp]
      simp [hp]

/-- Result of `loadWildfireFrames`: the registered frame ordinals, the return
value, and the toast emitted (the empty-result error). -/
structure LoadOutcome where
  frames : List Nat
  ok : Bool
  toast : Option String
deriving Repr, DecidableEq

/-- Function `loadWildfireFrames` from WildfireSimulationLayer: early-returns when no
map or no selected county is present; otherwise discovers frames and reports
an explicit empty-result error toast when zero frames were found. -/
def loadWildfireFrames (hasMap hasCounty : Bool) (probe : Nat → ProbeResult) :
    Option LoadOutcome :=
  if !hasMap || !hasCounty then none
  else
    let fs := discoverAux probe maxTimesteps 0
    if fs.length == 0 then
      some { frames := fs, ok := false, toast := some "No wildfire frames found." }
    else
      some { frames := fs, ok := true, toast := none }

/-- Number of frames a discovery run registers. -/
def framesFound (probe : Nat → ProbeResult) : Nat :=
  discoverCount probe maxTimesteps 0

theorem discovered_frames_eq_range (probe : Nat → ProbeResult) :
    discoverAux probe maxTimesteps 0 = List.range (framesFound probe) := by
  rw [framesFound, discoverAux_eq_range]
  simp

/-- Claim C8: frame discovery probes ordinals 0, 1, 2, … (address = base path
plus the ordinal zero-padded to 3 digits) and stops at the first ordinal whose
probe reports absence or whose fetch/decode fails, or at the hard cap of 100;
the discovered frame set is exactly the contiguous prefix `0 … k-1` of present
ordinals, in order, with no gaps. -/
theorem C8_discovery_contiguous_run (probe : Nat → ProbeResult) :
    framesFound probe ≤ maxTimesteps ∧
    (framesFound probe = 0 →
      loadWildfireFrames true true probe
        = some { frames := [], ok := false, toast := some "No wildfire frames found." }) ∧
    (framesFound probe ≠ 0 →
      loadWildfireFrames true true probe
        = some { frames := List.range (framesFound probe), ok := true, toast := none }) ∧
    (∀ i, i < framesFound probe → probe i = ProbeResult.present) ∧
    (framesFound probe < maxTimesteps → probe (framesFound probe) ≠ ProbeResult.present) ∧
    frameUrl "out" 5 = "out/wildfire_t_005.tif" ∧
    frameUrl "out" 42 = "out/wildfire_t_042.tif" ∧
    frameUrl "out" 100 = "out/wildfire_t_100.tif" := by
  refine ⟨discoverCount_le probe maxTimesteps 0, ?_, ?_, ?_, ?_, by decide, by decide,
    by decide⟩
  · intro h0
    simp [loadWildfireFrames, discovered_frames_eq_range, h0]
  · intro hne
    simp [loadWildfireFrames, discovered_frames_eq_range, hne]
  · intro i hi
    have h := discoverCount_present probe maxTimesteps 0 i hi
    simpa using h
  · intro hlt
    have h := discoverCount_stop probe maxTimesteps 0 hlt
    simpa using h

/-- Concrete discovery probe with frames present at ordinals 0..4 and absent
from ordinal 5 on. -/
def probeFive : Nat → ProbeResult :=
  fun i => if i < 5 then ProbeResult.present else ProbeResult.absent

/-- Witness for the C8 theorem: frames present at 0..4 and absent at 5 yield
exactly the five frames 0..4, in order. -/
theorem C8_witness :
    loadWildfireFrames true true probeFive
      = some { frames := List.range (framesFound probeFive), ok := true, toast := none } ∧
    framesFound probeFive = 5 :=
  ⟨(C8_discovery_contiguous_run probeFive).2.2.1 (by decide), by decide⟩

/-- One registered frame layer: `ready` is the latched readiness flag (the
one-shot `_readyPromise` has resolved) and `opacity` its current opacity. -/
structure Frame where
  ready : Bool
  opacity : Nat
deriving Repr, DecidableEq

/-- State of the wildfire animation player: the registered frame layers, the
`currentFrame` counter of the running animation, whether `wildfireAnimTimer`
is set, the indices with a `showFrame` call currently suspended on the
frame's readiness promise, the ghost log of reveals in execution order, and
the toast notifications emitted. -/
structure AnimState where
  frames : List Frame
  currentFrame : Nat
  timerActive : Bool
  pending : List Nat
  revealed : List Nat
  toasts : List String
deriving Repr, DecidableEq

/-- Call `frame.setOpacity(v)` on the frame at index `i` (out-of-range is a no-op;
it never occurs in generated runs). -/
def setOpacity (l : List Frame) (i v : Nat) : List Frame :=
  match l.get? i with
  | some f => l.set i { f with opacity := v }
  | none => l

/-- Calling `showFrame(i)`: if the frame's readiness promise has already
resolved the continuation proceeds at once (remove/re-add the layer, set
opacity to the configured value `vOp`, force redraws — of which the opacity
write is the observable part); otherwise the call suspends on the promise and
`i` joins the pending set. -/
def spawnShowFrame (vOp i : Nat) (s : AnimState) : AnimState :=
  match s.frames.get? i with
  | none => s
  | some f =>
    if f.ready then
      { s with frames := setOpacity s.frames i vOp, revealed := s.revealed ++ [i] }
    else
      { s with pending := s.pending ++ [i] }

/-- External events of one animation run: a `setInterval` tick of
`wildfireAnimTimer`, the renderer firing frame `i`'s one-shot load event, and
a `stopAnimation()` call. -/
inductive AnimEvent
  | tick
  | ready (i : Nat)
  | stop
deriving Repr, DecidableEq

/-- Function `stopAnimation` from WildfireSimulationLayer: clears the interval timer
and nothing else — suspended `showFrame` continuations are not cancelled. -/
def stopAnimation (s : AnimState) : AnimState :=
  { s with timerActive := false }

/-- Small-step semantics of the single-threaded event loop.  A `tick` only has
an effect while the timer is set: it advances `currentFrame`; at the end of
the frame list it stops and toasts completion, otherwise it hides the previous
frame and calls `showFrame` on the new one.  A `ready i` event latches frame
`i`'s readiness and resumes a suspended `showFrame(i)` continuation, which
then performs its reveal — regardless of whether the timer is still set. -/
def animStep (vOp : Nat) (e : AnimEvent) (s : AnimState) : AnimState :=
  match e with
  | AnimEvent.stop => stopAnimation s
  | AnimEvent.ready i =>
    match s.frames.get? i with
    | none => s
    | some f =>
      let s1 := { s with frames := s.frames.set i { f with ready := true } }
      if s.pending.contains i then
        { s1 with pending := s1.pending.filter (fun j => j != i),
                  frames := setOpacity s1.frames i vOp,
                  revealed := s1.revealed ++ [i] }
      else s1
  | AnimEvent.tick =>
    if s.timerActive then
      let c := s.currentFrame + 1
      if s.frames.length ≤ c then
        { s with currentFrame := c, timerActive := false,
                 toasts := s.toasts ++ ["Wildfire simulation complete."] }
      else
        spawnShowFrame vOp c
          { s with currentFrame := c, frames := setOpacity s.frames (c - 1) 0 }
    else s

/-- Function `startAnimation` from WildfireSimulationLayer: a silent no-op when there
is no map or the frame list is empty; otherwise stops any running timer,
resets every frame to opacity 0, calls `showFrame(0)`, and sets the interval
timer. -/
def startAnimation (vOp : Nat) (hasMap : Bool) (s : AnimState) : AnimState :=
  if !hasMap || s.frames.length == 0 then s
  else
    let s1 : AnimState := stopAnimation s
    let s2 : AnimState :=
      { s1 with frames := s1.frames.map (fun f => { f with opacity := 0 }) }
    let s3 : AnimState := spawnShowFrame vOp 0 { s2 with currentFrame := 0 }
    { s3 with timerActive := true }

/-- Run of the event loop over a list of events. -/
def animRun (vOp : Nat) (s : AnimState) (evs : List AnimEvent) : AnimState :=
  evs.foldl (fun st e => animStep vOp e st) s

/-- Claim C2 counterexample: start playback over one not-yet-ready frame (the
`showFrame(0)` call suspends awaiting readiness), then call `stopAnimation`;
when the frame's readiness signal later fires, the suspended reveal still
executes and raises the frame's opacity to the configured value 1 — a reveal
that was in flight at the moment of the stop executes after it. -/
theorem C2_counterexample :
    (animStep 1 AnimEvent.stop
        (startAnimation 1 true
          { frames := [{ ready := false, opacity := 0 }], currentFrame := 0,
            timerActive := false, pending := [], revealed := [], toasts := [] })).revealed
      = [] ∧
    (animStep 1 (AnimEvent.ready 0)
        (animStep 1 AnimEvent.stop
          (startAnimation 1 true
            { frames := [{ ready := false, opacity := 0 }], currentFrame := 0,
              timerActive := false, pending := [], revealed := [], toasts := [] }))).revealed
      = [0] ∧
    (animStep 1 (AnimEvent.ready 0)
        (animStep 1 AnimEvent.stop
          (startAnimation 1 true
            { frames := [{ ready := false, opacity := 0 }], currentFrame := 0,
              timerActive := false, pending := [], revealed := [], toasts := [] }))).frames
      = [{ ready := true, opacity := 1 }] := by decide

theorem animStep_timer_inactive (vOp : Nat) (e : AnimEvent) (s : AnimState)
    (h : s.timerActive = false) :
    (animStep vOp e s).timerActive = false ∧
    (∀ i, i ∈ (animStep vOp e s).revealed → i ∈ s.revealed ∨ i ∈ s.pending) ∧
    (∀ i, i ∈ (animStep vOp e s).pending → i ∈ s.pending) := by
  cases e with
  | stop =>
    exact ⟨rfl, fun i hi => Or.inl hi, fun i hi => hi⟩
  | tick =>
    have hs : animStep vOp AnimEvent.tick s = s := by
      simp [animStep, h]
    rw [hs]
    exact ⟨h, fun i hi => Or.inl hi, fun i hi => hi⟩
  | ready i0 =>
    cases hg : s.frames.get? i0 with
    | none =>
      have hs : animStep vOp (AnimEvent.ready i0) s = s := by
        unfold animStep
        dsimp only
        rw [hg]
      rw [hs]
      exact ⟨h, fun i hi => Or.inl hi, fun i hi => hi⟩
    | some f =>
      by_cases hc : s.pending.contains i0
      · have hs : animStep vOp (AnimEvent.ready i0) s
            = { s with frames := setOpacity (s.frames.set i0 { f with ready := true }) i0 vOp,
                       pending := s.pending.filter (fun j => j != i0),
                       revealed := s.revealed ++ [i0] } := by
          unfold animStep
          dsimp only
          rw [hg]
          dsimp only
          rw [if_pos hc]
        rw [hs]
        refine ⟨h, ?_, ?_⟩
        · intro i hi
          simp only [List.mem_append, List.mem_singleton] at hi
          rcases hi with hi | hi
          · exact Or.inl hi
          · subst hi
            exact Or.inr (by simpa using hc)
        · intro i hi
          exact List.mem_of_mem_filter hi
      · have hs : animStep vOp (AnimEvent.ready i0) s
            = { s with frames := s.frames.set i0 { f with ready := true } } := by
          unfold animStep
          dsimp only
          rw [hg]
          dsimp only
          rw [if_neg hc]
        rw [hs]
        exact ⟨h, fun i hi => Or.inl hi, fun i hi => hi⟩

theorem animRun_timer_inactive (vOp : Nat) (evs : List AnimEvent) :
    ∀ s : AnimState, s.timerActive = false →
      (animRun vOp s evs).timerActive = false ∧
      (∀ i, i ∈ (animRun vOp s evs).revealed → i ∈ s.revealed ∨ i ∈ s.pending) ∧
      (∀ i, i ∈ (animRun vOp s evs).pending → i ∈ s.pending) := by
  induction evs with
  | nil =>
    intro s h
    exact ⟨h, fun i hi => Or.inl hi, fun i hi => hi⟩
  | cons e evs ih =>
    intro s h
    obtain ⟨h1, h2, h3⟩ := animStep_timer_inactive vOp e s h
    obtain ⟨g1, g2, g3⟩ := ih (animStep vOp e s) h1
    refine ⟨g1, ?_, ?_⟩
    · intro i hi
      rcases g2 i hi with hi2 | hi2
      · exact h2 i hi2
      · exact Or.inr (h3 i hi2)
    · intro i hi
      exact h3 i (g3 i hi)

/-- Claim C2 (amended): `stopAnimation` clears the interval timer, so from the
moment of the call the timer stays cancelled for the rest of the run and no new
reveal is ever scheduled by a tick; however, a `showFrame` call that was
already suspended on its frame's readiness promise at that moment is not
cancelled — any reveal executed after the stop is of a frame whose `showFrame`
was already pending then, resumed by the frame's readiness signal. -/
theorem C2_stop_cancels_timer_only (vOp : Nat) (s : AnimState) (evs : List AnimEvent) :
    (animRun vOp (stopAnimation s) evs).timerActive = false ∧
    (∀ i, i ∈ (animRun vOp (stopAnimation s) evs).revealed →
      i ∈ s.revealed ∨ i ∈ s.pending) ∧
    (∀ i, i ∈ (animRun vOp (stopAnimation s) evs).pending → i ∈ s.pending) :=
  animRun_timer_inactive vOp evs (stopAnimation s) rfl

/-- Claim C3 counterexample: frames 0 and 2 are ready, frame 1's readiness
resolves only after two timer ticks have passed.  The run start, tick, tick,
ready 1 reveals frames in the order 0, 2, 1 — not strictly increasing — and
leaves frames 1 and 2 simultaneously at the visible opacity 1, so two frames
are visible at once and not merely transiently. -/
theorem C3_counterexample :
    (animRun 1 (startAnimation 1 true
        { frames := [{ ready := true, opacity := 0 }, { ready := false, opacity := 0 },
                     { ready := true, opacity := 0 }],
          currentFrame := 0, timerActive := false, pending := [], revealed := [],
          toasts := [] })
        [AnimEvent.tick, AnimEvent.tick, AnimEvent.ready 1]).revealed = [0, 2, 1] ∧
    (animRun 1 (startAnimation 1 true
        { frames := [{ ready := true, opacity := 0 }, { ready := false, opacity := 0 },
                     { ready := true, opacity := 0 }],
          currentFrame := 0, timerActive := false, pending := [], revealed := [],
          toasts := [] })
        [AnimEvent.tick, AnimEvent.tick, AnimEvent.ready 1]).frames
      = [{ ready := true, opacity := 0 }, { ready := true, opacity := 1 },
         { ready := true, opacity := 1 }] := by decide

theorem set_get?_self {α : Type} (l : List α) (i : Nat) (a : α)
    (h : l.get? i = some a) : l.set i a = l := by
  induction l generalizing i with
  | nil => simp at h
  | cons x xs ih =>
    cases i with
    | zero =>
      simp only [List.get?_cons_zero, Option.some.injEq] at h
      simp [h]
    | succ j =>
      simp only [List.get?_cons_succ] at h
      simp [ih j h]

theorem setOpacity_get? (l : List Frame) (i v j : Nat) :
    (setOpacity l i v).get? j
      = if j = i then (l.get? i).map (fun f => { f with opacity := v })
        else l.get? j := by
  unfold setOpacity
  cases hg : l.get? i with
  | none =>
    by_cases hji : j = i
    · subst hji
      rw [if_pos rfl, hg]
      rfl
    · rw [if_neg hji]
  | some f =>
    by_cases hji : j = i
    · subst hji
      have hg2 : l[j]? = some f := by
        rw [← List.get?_eq_getElem?]
        exact hg
      rw [if_pos rfl, List.get?_eq_getElem?, List.getElem?_set_self', hg2]
      rfl
    · rw [if_neg hji, List.get?_eq_getElem?, List.get?_eq_getElem?,
        List.getElem?_set_ne (Ne.symm hji)]

theorem setOpacity_length (l : List Frame) (i v : Nat) :
    (setOpacity l i v).length = l.length := by
  unfold setOpacity
  cases l.get? i <;> simp

theorem setOpacity_ready_preserved (l : List Frame) (i v : Nat)
    (h : ∀ j f, l.get? j = some f → f.ready = true) :
    ∀ j f, (setOpacity l i v).get? j = some f → f.ready = true := by
  intro j f hf
  rw [setOpacity_get?] at hf
  split at hf
  · cases hg : l.get? i with
    | none =>
      rw [hg] at hf
      simp at hf
    | some g =>
      rw [hg] at hf
      simp only [Option.map_some', Option.some.injEq] at hf
      have hr := h i g hg
      rw [← hf]
      exact hr
  · exact h j f hf

/-- Every registered frame's readiness flag is latched. -/
def allFramesReady (s : AnimState) : Prop :=
  ∀ j f, s.frames.get? j = some f → f.ready = true

/-- Every frame other than the one at index `i` has opacity 0 — at most one
frame is visible. -/
def onlyVisAt (s : AnimState) (i : Nat) : Prop :=
  ∀ j g, s.frames.get? j = some g → j ≠ i → g.opacity = 0

/-- Invariant of a playback run whose frames were all ready at start: no
`showFrame` is ever still suspended, the reveal log is exactly `0, 1, …` in
order, at most one frame is visible, and while the timer runs the reveal log
ends at the current frame, which is the only visible one. -/
def AnimInv (s : AnimState) : Prop :=
  allFramesReady s ∧ s.pending = [] ∧
  s.revealed = List.range s.revealed.length ∧
  (∃ i, onlyVisAt s i) ∧
  (s.timerActive = true →
    s.revealed.length = s.currentFrame + 1 ∧
    s.currentFrame < s.frames.length ∧
    onlyVisAt s s.currentFrame)

theorem startAnimation_inv (vOp : Nat) (frames : List Frame)
    (hne : frames ≠ [])
    (hready : ∀ j f, frames.get? j = some f → f.ready = true) :
    AnimInv (startAnimation vOp true
      { frames := frames, currentFrame := 0, timerActive := false, pending := [],
        revealed := [], toasts := [] }) := by
  cases frames with
  | nil => exact absurd rfl hne
  | cons a as =>
    obtain ⟨r, o⟩ := a
    have ha : r = true := hready 0 ⟨r, o⟩ rfl
    subst ha
    have hstart : startAnimation vOp true
        { frames := ⟨true, o⟩ :: as, currentFrame := 0, timerActive := false,
          pending := [], revealed := [], toasts := [] }
        = { frames := ⟨true, vOp⟩ :: as.map (fun f => { f with opacity := 0 }),
            currentFrame := 0, timerActive := true, pending := [], revealed := [0],
            toasts := [] } := rfl
    rw [hstart]
    have hvis0 : onlyVisAt
        { frames := ⟨true, vOp⟩ :: as.map (fun f => { f with opacity := 0 }),
          currentFrame := 0, timerActive := true, pending := [], revealed := [0],
          toasts := [] } 0 := by
      intro j g hj hne0
      cases j with
      | zero => exact absurd rfl hne0
      | succ j =>
        simp only [List.get?_cons_succ, List.get?_map] at hj
        cases hg : as.get? j with
        | none =>
          rw [hg] at hj
          simp at hj
        | some g2 =>
          rw [hg] at hj
          simp only [Option.map_some', Option.some.injEq] at hj
          rw [← hj]
    refine ⟨?_, rfl, rfl, ⟨0, hvis0⟩, ?_⟩
    · intro j f hf
      cases j with
      | zero =>
        simp only [List.get?_cons_zero, Option.some.injEq] at hf
        rw [← hf]
      | succ j =>
        simp only [List.get?_cons_succ, List.get?_map] at hf
        cases hg : as.get? j with
        | none =>
          rw [hg] at hf
          simp at hf
        | some g2 =>
          rw [hg] at hf
          simp only [Option.map_some', Option.some.injEq] at hf
          have := hready (j + 1) g2 (by simpa using hg)
          rw [← hf]
          exact this
    · intro _
      refine ⟨rfl, by simp, hvis0⟩

theorem animStep_inv (vOp : Nat) (e : AnimEvent) (s : AnimState) (h : AnimInv s) :
    AnimInv (animStep vOp e s) := by
  obtain ⟨hready, hpend, hrev, ⟨iv, hvis⟩, htimer⟩ := h
  cases e with
  | stop =>
    refine ⟨hready, hpend, hrev, ⟨iv, hvis⟩, ?_⟩
    intro ht
    simp [animStep, stopAnimation] at ht
  | ready i0 =>
    cases hg : s.frames.get? i0 with
    | none =>
      have hs : animStep vOp (AnimEvent.ready i0) s = s := by
        unfold animStep
        try dsimp only
        rw [hg]
      rw [hs]
      exact ⟨hready, hpend, hrev, ⟨iv, hvis⟩, htimer⟩
    | some f =>
      have hf : f.ready = true := hready i0 f hg
      have hcontains : ¬(s.pending.contains i0 = true) := by
        rw [hpend]
        simp
      have hfr : { f with ready := true } = f := by
        obtain ⟨r, o⟩ := f
        simp only [] at hf
        rw [hf]
      have hset : s.frames.set i0 { f with ready := true } = s.frames := by
        rw [hfr]
        exact set_get?_self s.frames i0 f hg
      have hs : animStep vOp (AnimEvent.ready i0) s = s := by
        unfold animStep
        try dsimp only
        rw [hg]
        try dsimp only
        rw [if_neg hcontains, hset]
      rw [hs]
      exact ⟨hready, hpend, hrev, ⟨iv, hvis⟩, htimer⟩
  | tick =>
    by_cases ht : s.timerActive = true
    case neg =>
      have hs : animStep vOp AnimEvent.tick s = s := by
        unfold animStep
        try dsimp only
        rw [if_neg ht]
      rw [hs]
      exact ⟨hready, hpend, hrev, ⟨iv, hvis⟩, htimer⟩
    case pos =>
      obtain ⟨hlen, hcur, hvisc⟩ := htimer ht
      by_cases hend : s.frames.length ≤ s.currentFrame + 1
      · have hs : animStep vOp AnimEvent.tick s
            = { s with currentFrame := s.currentFrame + 1, timerActive := false,
                       toasts := s.toasts ++ ["Wildfire simulation complete."] } := by
          unfold animStep
          try dsimp only
          rw [if_pos ht]
          try dsimp only
          rw [if_pos hend]
        rw [hs]
        refine ⟨hready, hpend, hrev, ⟨iv, hvis⟩, ?_⟩
        intro hcontra
        simp at hcontra
      · have hclt : s.currentFrame + 1 < s.frames.length := by omega
        cases hgc : s.frames.get? (s.currentFrame + 1) with
        | none =>
          rw [List.get?_eq_none] at hgc
          omega
        | some g =>
          have hgr : g.ready = true := hready _ g hgc
          have hget1 : (setOpacity s.frames s.currentFrame 0).get? (s.currentFrame + 1)
              = some g := by
            rw [setOpacity_get?, if_neg (by omega)]
            exact hgc
          have hs : animStep vOp AnimEvent.tick s
              = { s with currentFrame := s.currentFrame + 1,
                         frames := setOpacity (setOpacity s.frames s.currentFrame 0)
                           (s.currentFrame + 1) vOp,
                         revealed := s.revealed ++ [s.currentFrame + 1] } := by
            unfold animStep
            try dsimp only
            rw [if_pos ht]
            try dsimp only
            rw [if_neg hend]
            rw [Nat.add_sub_cancel]
            unfold spawnShowFrame
            try dsimp only
            rw [hget1]
            try dsimp only
            rw [if_pos hgr]
          rw [hs]
          have hvisF : ∀ j g2,
              (setOpacity (setOpacity s.frames s.currentFrame 0)
                (s.currentFrame + 1) vOp).get? j = some g2 →
              j ≠ s.currentFrame + 1 → g2.opacity = 0 := by
            intro j g2 hj hne
            rw [setOpacity_get?, if_neg hne, setOpacity_get?] at hj
            by_cases hjc : j = s.currentFrame
            · rw [if_pos hjc] at hj
              cases hg0 : s.frames.get? s.currentFrame with
              | none =>
                rw [hg0] at hj
                simp at hj
              | some g0 =>
                rw [hg0] at hj
                simp only [Option.map_some', Option.some.injEq] at hj
                rw [← hj]
            · rw [if_neg hjc] at hj
              exact hvisc j g2 hj hjc
          have hlen2 : (s.revealed ++ [s.currentFrame + 1]).length
              = s.currentFrame + 2 := by
            simp [hlen]
          refine ⟨?_, hpend, ?_, ⟨s.currentFrame + 1, hvisF⟩, ?_⟩
          · exact setOpacity_ready_preserved _ _ _
              (setOpacity_ready_preserved _ _ _ hready)
          · rw [hlen2, List.range_succ, hrev, hlen]
          · intro _
            refine ⟨hlen2, ?_, hvisF⟩
            show s.currentFrame + 1 < (setOpacity (setOpacity s.frames s.currentFrame 0)
              (s.currentFrame + 1) vOp).length
            rw [setOpacity_length, setOpacity_length]
            omega

theorem animRun_inv (vOp : Nat) (evs : List AnimEvent) :
    ∀ s : AnimState, AnimInv s → AnimInv (animRun vOp s evs) := by
  induction evs with
  | nil =>
    intro s h
    exact h
  | cons e evs ih =>
    intro s h
    exact ih (animStep vOp e s) (animStep_inv vOp e s h)

/-- Claim C3 (amended): when every discovered frame is already ready at the
moment playback starts, then throughout the run the reveal log is exactly
`0, 1, 2, …` — strictly increasing, gap-free, repeat-free — and at every step
boundary at most one frame has non-zero opacity.  When a frame's readiness
signal resolves later than an animation tick, neither guarantee holds (see the
counterexample). -/
theorem C3_ordered_reveals_when_ready (vOp : Nat) (frames : List Frame)
    (hne : frames ≠ [])
    (hready : ∀ j f, frames.get? j = some f → f.ready = true)
    (evs : List AnimEvent) :
    (animRun vOp (startAnimation vOp true
        { frames := frames, currentFrame := 0, timerActive := false, pending := [],
          revealed := [], toasts := [] }) evs).revealed
      = List.range (animRun vOp (startAnimation vOp true
        { frames := frames, currentFrame := 0, timerActive := false, pending := [],
          revealed := [], toasts := [] }) evs).revealed.length ∧
    (∃ i, onlyVisAt (animRun vOp (startAnimation vOp true
        { frames := frames, currentFrame := 0, timerActive := false, pending := [],
          revealed := [], toasts := [] }) evs) i) := by
  have h := animRun_inv vOp evs _ (startAnimation_inv vOp frames hne hready)
  exact ⟨h.2.2.1, h.2.2.2.1⟩

/-- Witness for the amended C3 theorem: a two-frame run (all frames ready)
after one tick has reveal log `[0, 1]`, which equals `range 2`. -/
theorem C3_witness :
    (animRun 1 (startAnimation 1 true
        { frames := [{ ready := true, opacity := 0 }, { ready := true, opacity := 0 }],
          currentFrame := 0, timerActive := false, pending := [], revealed := [],
          toasts := [] }) [AnimEvent.tick]).revealed
      = List.range (animRun 1 (startAnimation 1 true
        { frames := [{ ready := true, opacity := 0 }, { ready := true, opacity := 0 }],
          currentFrame := 0, timerActive := false, pending := [], revealed := [],
          toasts := [] }) [AnimEvent.tick]).revealed.length :=
  (C3_ordered_reveals_when_ready 1
      [{ ready := true, opacity := 0 }, { ready := true, opacity := 0 }]
      (by simp)
      (by
        intro j f hf
        cases j with
        | zero =>
          simp only [List.get?_cons_zero, Option.some.injEq] at hf
          rw [← hf]
        | succ j =>
          cases j with
          | zero =>
            simp only [List.get?_cons_succ, List.get?_cons_zero,
              Option.some.injEq] at hf
            rw [← hf]
          | succ j =>
            simp only [List.get?_cons_succ, List.get?_nil] at hf
            exact absurd hf (by simp))
      [AnimEvent.tick]).1

theorem discoverAux_succ (probe : Nat → ProbeResult) (n t : Nat) :
    discoverAux probe (n + 1) t
      = match probe t with
        | ProbeResult.present => t :: discoverAux probe n (t + 1)
        | _ => [] := rfl

/-- Claim C10: calling `startAnimation` when the discovered frame list is
empty (or no map is present) is a silent no-op — the state is returned
unchanged, so no timer is started, no frame opacity changes, and no
notification is emitted; the explicit empty-result error toast is emitted only
by the discovery operation `loadWildfireFrames` when it finds zero frames. -/
theorem C10_empty_start_silent_noop (vOp : Nat) (hasMap : Bool) (s : AnimState)
    (probe : Nat → ProbeResult)
    (h : hasMap = false ∨ s.frames = [])
    (h0 : probe 0 ≠ ProbeResult.present) :
    startAnimation vOp hasMap s = s ∧
    loadWildfireFrames true true probe
      = some { frames := [], ok := false, toast := some "No wildfire frames found." } := by
  constructor
  · rcases h with h | h
    · simp [startAnimation, h]
    · simp [startAnimation, h]
  · have hd : discoverAux probe maxTimesteps 0 = [] := by
      rw [show maxTimesteps = 99 + 1 from rfl, discoverAux_succ]
      cases hp : probe 0 with
      | present => exact absurd hp h0
      | absent => rfl
      | fetchFail => rfl
    simp [loadWildfireFrames, hd]

/-- Witness for the C10 theorem at a concrete empty state and all-absent
probe. -/
theorem C10_witness :
    startAnimation 1 true
        { frames := [], currentFrame := 0, timerActive := false, pending := [],
          revealed := [], toasts := [] }
      = { frames := [], currentFrame := 0, timerActive := false, pending := [],
          revealed := [], toasts := [] } :=
  (C10_empty_start_silent_noop 1 true
      { frames := [], currentFrame := 0, timerActive := false, pending := [],
        revealed := [], toasts := [] }
      (fun _ => ProbeResult.absent) (Or.inr rfl) (by decide)).1

/-- Witness for the amended C2 theorem at a concrete stopped state with a
suspended `showFrame(0)`. -/
theorem C2_witness :
    (animRun 1 (stopAnimation
        { frames := [{ ready := false, opacity := 0 }], currentFrame := 0,
          timerActive := true, pending := [0], revealed := [], toasts := [] })
        [AnimEvent.tick, AnimEvent.ready 0]).timerActive = false :=
  (C2_stop_cancels_timer_only 1
      { frames := [{ ready := false, opacity := 0 }], currentFrame := 0,
        timerActive := true, pending := [0], revealed := [], toasts := [] }
      [AnimEvent.tick, AnimEvent.ready 0]).1
